import Mathlib

/-!
Shallow embedding of the usage-accounting core of cloudigrade
(src/cloudigrade/api/tasks.py), covering:

* `calculate_max_concurrent_usage_task` (tasks.py lines 551-646): the
  Celery worker that computes a user's max-concurrent-usage for a date,
  guarded by a per-user lock and by the ConcurrentUsageCalculationTask
  state machine (SCHEDULED / COMPLETE / ERROR).
* `process_instance_event` (tasks.py lines 416-458): dispatch of an
  incoming InstanceEvent to either run recalculation or fresh-tail
  normalization.
* `_delete_cloud_accounts` (tasks.py lines 264-296): per-account
  deletion under the per-user lock.

Python exceptions are modelled by the `Outcome` type (an exception is a
natural-number label, so that re-raising "the same" exception is
expressible).  The environment record `TaskEnv` fixes, for one
execution, the behaviour of the two effectful collaborators that can
raise: lock acquisition (`lock_task_for_user_ids`, which can time out)
and the usage computation (`calculate_max_concurrent_usage`).  Helper
functions of this repository that are not under src/ (they live in
api/util.py and util/misc.py) are modelled from the spec and marked so
in their doc comments.
-/

namespace Cloudigrade

/-- The three lifecycle states of a ConcurrentUsageCalculationTask
(spec section 4.5; api.models constants referenced from tasks.py). -/
inductive TaskStatus where
  | SCHEDULED
  | COMPLETE
  | ERROR
deriving DecidableEq, Repr

/-- One row of the ConcurrentUsageCalculationTask table: opaque task
identifier, user identifier, target date, status. -/
structure ConcurrentUsageCalculationTask where
  task_id : Nat
  user_id : Nat
  date : Nat
  status : TaskStatus
deriving DecidableEq, Repr

/-- The slice of the persistent store that
`calculate_max_concurrent_usage_task` reads and writes: the existing
user ids, the ConcurrentUsageCalculationTask rows, and a log of
ConcurrentUsage snapshot writes as (user_id, date) pairs. -/
structure TaskState where
  users : List Nat
  tasks : List ConcurrentUsageCalculationTask
  usageWrites : List (Nat × Nat)
deriving DecidableEq, Repr

/-- Environment of one execution: whether lock acquisition raises
(`lockExc = some e` models a lock timeout raising exception `e`),
whether `calculate_max_concurrent_usage` raises, and the fresh task
identifier used if a replacement task must be scheduled. -/
structure TaskEnv where
  lockExc : Option Nat
  calcExc : Option Nat
  freshTaskId : Nat
deriving DecidableEq, Repr

/-- Either a normal return or a raised exception (labelled by a Nat so
that propagating the same exception is expressible). -/
inductive Outcome where
  | ok
  | raised (e : Nat)
deriving DecidableEq, Repr

/-- Observable effects of one execution of the task: whether the
per-user lock was acquired, whether it was released again, whether
`calculate_max_concurrent_usage` was invoked, and whether a
replacement task was scheduled. -/
structure LockTrace where
  lockAcquired : Bool
  lockReleased : Bool
  calcInvoked : Bool
  scheduledNewTask : Bool
deriving DecidableEq, Repr

/-- Result of one execution of `calculate_max_concurrent_usage_task`. -/
structure TaskRunResult where
  state : TaskState
  trace : LockTrace
  outcome : Outcome
deriving DecidableEq, Repr

/-- The lookup `ConcurrentUsageCalculationTask.objects.get(task_id=task_id)`
(tasks.py line 597), returning `none` where Django raises
`DoesNotExist`. -/
def findTask (tasks : List ConcurrentUsageCalculationTask) (task_id : Nat) :
    Option ConcurrentUsageCalculationTask :=
  tasks.find? (fun t => t.task_id == task_id)

/-- The except-handler update (tasks.py lines 643-645):
`ConcurrentUsageCalculationTask.objects.filter(task_id=task_id).update(status=ERROR)`,
a filtered bulk update.  It rewrites every matching row and no other
row; when no row matches it affects zero rows, and (being total) it
never raises. -/
def handleTaskError (task_id : Nat)
    (tasks : List ConcurrentUsageCalculationTask) :
    List ConcurrentUsageCalculationTask :=
  tasks.map (fun t =>
    if t.task_id == task_id then { t with status := TaskStatus.ERROR } else t)

/-- The write `calculation_task.status = COMPLETE; calculation_task.save()`
(tasks.py lines 629-630): the in-memory instance read under the lock is
written back by its identifier. -/
def setTaskComplete (task_id : Nat)
    (tasks : List ConcurrentUsageCalculationTask) :
    List ConcurrentUsageCalculationTask :=
  tasks.map (fun t =>
    if t.task_id == task_id then { t with status := TaskStatus.COMPLETE } else t)

/-- Modelled from the spec: `schedule_concurrent_calculation_task`
(api/util.py, not under src/).  Spec sections 4.5 and 4.6: create a
fresh SCHEDULED task record for the same (user, date) under a new task
identifier. -/
def schedule_concurrent_calculation_task (freshTaskId user_id date : Nat)
    (tasks : List ConcurrentUsageCalculationTask) :
    List ConcurrentUsageCalculationTask :=
  tasks ++ [⟨freshTaskId, user_id, date, TaskStatus.SCHEDULED⟩]

/-- Modelled from the spec: the persistence effect of
`calculate_max_concurrent_usage` (api/util.py, not under src/).  Spec
section 4.3: compute and persist the ConcurrentUsage snapshot for the
(user, date) pair; here only the fact of the write is recorded. -/
def calculate_max_concurrent_usage (date user_id : Nat)
    (writes : List (Nat × Nat)) : List (Nat × Nat) :=
  writes ++ [(user_id, date)]

/-- Shallow embedding of `calculate_max_concurrent_usage_task`
(tasks.py lines 557-646).

Control flow of the source:
1. if the user does not exist, return immediately (lines 585-588);
2. `try:` enter `with lock_task_for_user_ids([user_id])` (line 595) —
   if acquisition raises, control goes straight to the except handler
   with the lock never held;
3. re-read the task record by task id; on `DoesNotExist`, schedule a
   replacement task and return (lines 596-609);
4. if its status is not SCHEDULED, return without changes (611-625);
5. run `calculate_max_concurrent_usage(date, user_id)` (627) — if it
   raises, the `with` block exits (releasing the lock) and control
   reaches the except handler;
6. mark the task COMPLETE and return (629-636);
7. `except Exception`: bulk-update the task row to ERROR and re-raise
   the same exception (637-646).

The `with` statement of the source guarantees release of the lock on
every exit from the locked region; the release behaviour of
`lock_task_for_user_ids` itself (util/misc.py, not under src/) is
modelled from the spec (section 4.4: "lock(s) are guaranteed released
on every exit path, including failure"). -/
def calculate_max_concurrent_usage_task (env : TaskEnv)
    (task_id user_id date : Nat) (st : TaskState) : TaskRunResult :=
  if user_id ∈ st.users then
    match env.lockExc with
    | some e =>
        { state := { st with tasks := handleTaskError task_id st.tasks },
          trace := { lockAcquired := false, lockReleased := false,
                     calcInvoked := false, scheduledNewTask := false },
          outcome := Outcome.raised e }
    | none =>
        match findTask st.tasks task_id with
        | none =>
            let tasks2 :=
              schedule_concurrent_calculation_task env.freshTaskId
                user_id date st.tasks
            { state := { st with tasks := tasks2 },
              trace := { lockAcquired := true, lockReleased := true,
                         calcInvoked := false, scheduledNewTask := true },
              outcome := Outcome.ok }
        | some calculation_task =>
            if calculation_task.status ≠ TaskStatus.SCHEDULED then
              { state := st,
                trace := { lockAcquired := true, lockReleased := true,
                           calcInvoked := false, scheduledNewTask := false },
                outcome := Outcome.ok }
            else
              match env.calcExc with
              | some e =>
                  { state := { st with tasks := handleTaskError task_id st.tasks },
                    trace := { lockAcquired := true, lockReleased := true,
                               calcInvoked := true, scheduledNewTask := false },
                    outcome := Outcome.raised e }
              | none =>
                  { state := { st with
                      usageWrites :=
                        calculate_max_concurrent_usage date user_id st.usageWrites,
                      tasks := setTaskComplete task_id st.tasks },
                    trace := { lockAcquired := true, lockReleased := true,
                               calcInvoked := true, scheduledNewTask := false },
                    outcome := Outcome.ok }
  else
    { state := st,
      trace := { lockAcquired := false, lockReleased := false,
                 calcInvoked := false, scheduledNewTask := false },
      outcome := Outcome.ok }

/-- The status of the task row with the given identifier, if present. -/
def taskStatus (st : TaskState) (task_id : Nat) : Option TaskStatus :=
  (findTask st.tasks task_id).map (fun t => t.status)

/-- InstanceEvent.TYPE constants (`power_on` / `power_off`) as used by
tasks.py line 440. -/
inductive EventType where
  | power_on
  | power_off
deriving DecidableEq, Repr

/-- An InstanceEvent row: instance identifier, event kind, timestamp of
occurrence, referenced image, and instance shape metadata. -/
structure InstanceEvent where
  instance_id : Nat
  event_type : EventType
  occurred_at : Int
  image_id : Nat
  instance_type : Nat
  memory : Nat
  vcpu : Nat
deriving DecidableEq, Repr

/-- A Run row, with the fields written by tasks.py lines 447-455. -/
structure Run where
  instance_id : Nat
  machineimage_id : Nat
  start_time : Int
  end_time : Option Int
  instance_type : Nat
  memory : Nat
  vcpu : Nat
deriving DecidableEq, Repr

/-- The Q-filter of tasks.py lines 431-435 applied to one Run:
`after_run` is `start_time__gt=occurred_at`, `during_run` is
`start_time__lte=occurred_at, end_time__gt=occurred_at` (a SQL
comparison against NULL is false, so a Run with no end time does not
match `during_run`), and `during_run_no_end` is
`start_time__lte=occurred_at, end_time=None`. -/
def affectsExistingRun (occurred_at : Int) (r : Run) : Bool :=
  decide (occurred_at < r.start_time) ||
  (decide (r.start_time ≤ occurred_at) &&
    (match r.end_time with
     | some e => decide (occurred_at < e)
     | none => false)) ||
  (decide (r.start_time ≤ occurred_at) && r.end_time == none)

/-- The shape of one element produced by `normalize_runs`, with the
fields read by tasks.py lines 447-455. -/
structure NormalizedRun where
  start_time : Int
  end_time : Option Int
  image_id : Nat
  instance_id : Nat
  instance_type : Nat
  instance_memory : Nat
  instance_vcpu : Nat
deriving DecidableEq, Repr

/-- Modelled from the spec: the scan of `normalize_runs` (api/util.py,
not under src/) for the event history of a single instance.  Spec
section 4.1: scan events in timestamp order keeping the current open
Run; a `power_on` with no open Run starts one (start = event timestamp,
shape = event metadata); a `power_on` while one is open is a no-op; a
`power_off` while one is open closes it (end = event timestamp); a
`power_off` with no open Run is discarded; a Run still open when the
scan ends is emitted with `end = none`. -/
def normalizeScan : Option NormalizedRun → List InstanceEvent → List NormalizedRun
  | none, [] => []
  | some r, [] => [r]
  | none, e :: rest =>
      match e.event_type with
      | EventType.power_on =>
          normalizeScan
            (some ⟨e.occurred_at, none, e.image_id, e.instance_id,
                   e.instance_type, e.memory, e.vcpu⟩) rest
      | EventType.power_off => normalizeScan none rest
  | some r, e :: rest =>
      match e.event_type with
      | EventType.power_on => normalizeScan (some r) rest
      | EventType.power_off =>
          { r with end_time := some e.occurred_at } :: normalizeScan none rest

/-- Modelled from the spec: `normalize_runs` (api/util.py, not under
src/), restricted to a single instance's ordered event list — the only
form the embedded call site (tasks.py line 441) uses, where the
argument is the single event `[event]`. -/
def normalize_runs (events : List InstanceEvent) : List NormalizedRun :=
  normalizeScan none events

/-- The persistent state read and written by `process_instance_event`:
existing instance ids, the persisted InstanceEvents (already saved by
log analysis, in timestamp order per instance), and the Run rows. -/
structure EventProcessState where
  instances : List Nat
  events : List InstanceEvent
  runs : List Run
deriving DecidableEq, Repr

/-- Modelled from the spec: `recalculate_runs` (api/util.py, not under
src/).  Spec section 4.2: remove every Run for the instance whose
interval could be affected — any Run starting at or after the event's
timestamp, plus any Run open or closed that spans it — re-run the
Normalizer over the complete event history for the instance, and
persist the rebuilt Runs. -/
def recalculate_runs (event : InstanceEvent) (st : EventProcessState) :
    EventProcessState :=
  let affected := fun (r : Run) =>
    r.instance_id == event.instance_id &&
      (decide (event.occurred_at ≤ r.start_time) ||
       (decide (r.start_time ≤ event.occurred_at) &&
         (match r.end_time with
          | some e => decide (event.occurred_at < e)
          | none => true)))
  let surviving := st.runs.filter (fun r => !(affected r))
  let history := st.events.filter (fun e2 => e2.instance_id == event.instance_id)
  let rebuilt := (normalize_runs history).map (fun nr =>
    Run.mk nr.instance_id nr.image_id nr.start_time nr.end_time
      nr.instance_type nr.instance_memory nr.instance_vcpu)
  { st with runs := surviving ++ rebuilt }

/-- Result of one execution of `process_instance_event`. -/
structure EventProcessResult where
  state : EventProcessState
  recalculateInvoked : Bool
  usageRecalculationTriggered : Bool
  outcome : Outcome
deriving DecidableEq, Repr

/-- Shallow embedding of `process_instance_event` (tasks.py lines
416-458).  `Instance.objects.get(id=event.instance_id)` (line 436)
raises `DoesNotExist` when the instance is missing; the filtered
existence check (line 438) sends the event to `recalculate_runs` when
some Run of the instance matches the Q-filter; otherwise a `power_on`
event is normalized into fresh Runs which are saved and handed to
`calculate_max_concurrent_usage_from_runs` (lines 440-458), and any
other event falls through with no effect. -/
def process_instance_event (event : InstanceEvent) (st : EventProcessState) :
    EventProcessResult :=
  if event.instance_id ∈ st.instances then
    if st.runs.any (fun r =>
        r.instance_id == event.instance_id &&
          affectsExistingRun event.occurred_at r) then
      { state := recalculate_runs event st,
        recalculateInvoked := true,
        usageRecalculationTriggered := true,
        outcome := Outcome.ok }
    else if event.event_type == EventType.power_on then
      let normalized := normalize_runs [event]
      let newRuns := normalized.map (fun nr =>
        Run.mk nr.instance_id nr.image_id nr.start_time nr.end_time
          nr.instance_type nr.instance_memory nr.instance_vcpu)
      { state := { st with runs := st.runs ++ newRuns },
        recalculateInvoked := false,
        usageRecalculationTriggered := true,
        outcome := Outcome.ok }
    else
      { state := st,
        recalculateInvoked := false,
        usageRecalculationTriggered := false,
        outcome := Outcome.ok }
  else
    { state := st,
      recalculateInvoked := false,
      usageRecalculationTriggered := false,
      outcome := Outcome.raised 0 }

/-- A CloudAccount row as used by `_delete_cloud_accounts`: its id and
its owning user's id. -/
structure CloudAccount where
  id : Nat
  user_id : Nat
deriving DecidableEq, Repr

/-- One completed critical section of `lock_task_for_user_ids`: the
user id it locked and whether the lock was released again. -/
structure LockSpan where
  user_id : Nat
  released : Bool
deriving DecidableEq, Repr

/-- Result of one execution of `_delete_cloud_accounts`: the surviving
CloudAccount ids, the critical sections that were entered, and the
outcome. -/
structure DeleteResult where
  db : List Nat
  locks : List LockSpan
  outcome : Outcome
deriving DecidableEq, Repr

/-- Shallow embedding of `_delete_cloud_accounts` (tasks.py lines
264-296).  For each account in the list, `with
lock_task_for_user_ids([cloud_account.user.id])` is entered (line 283);
`lockExcAt i` gives the lock-acquisition behaviour at the i-th
iteration (`some e` models a timeout raising `e`, which propagates out
of the loop with the lock never held).  Inside the lock,
`cloud_account.refresh_from_db()` raises `DoesNotExist` when the row is
already gone, which the `except` clause catches and logs (lines
290-296); otherwise the queryset delete removes the row.  Either way
the `with` block releases the lock and the loop continues.  The release
behaviour of `lock_task_for_user_ids` (util/misc.py, not under src/) is
modelled from the spec, section 4.4. -/
def _delete_cloud_accounts (lockExcAt : Nat → Option Nat) :
    List CloudAccount → List Nat → DeleteResult
  | [], db => ⟨db, [], Outcome.ok⟩
  | a :: rest, db =>
      match lockExcAt 0 with
      | some e => ⟨db, [], Outcome.raised e⟩
      | none =>
          let db2 := if a.id ∈ db then db.erase a.id else db
          let r := _delete_cloud_accounts (fun i => lockExcAt (i + 1)) rest db2
          ⟨r.db, ⟨a.user_id, true⟩ :: r.locks, r.outcome⟩

/-! ### Helper lemmas about the task-table operations -/

theorem findTask_handleTaskError (tasks : List ConcurrentUsageCalculationTask)
    (task_id : Nat) :
    findTask (handleTaskError task_id tasks) task_id =
      (findTask tasks task_id).map (fun t => { t with status := TaskStatus.ERROR }) := by
  induction tasks with
  | nil => rfl
  | cons t rest ih =>
    by_cases h : t.task_id = task_id
    · have hb : (t.task_id == task_id) = true := beq_iff_eq.mpr h
      simp [findTask, handleTaskError, List.find?, Function.comp, h, hb]
    · have hb : (t.task_id == task_id) = false := beq_eq_false_iff_ne.mpr h
      simpa [findTask, handleTaskError, List.find?, Function.comp, h, hb] using ih

theorem findTask_setTaskComplete (tasks : List ConcurrentUsageCalculationTask)
    (task_id : Nat) :
    findTask (setTaskComplete task_id tasks) task_id =
      (findTask tasks task_id).map (fun t => { t with status := TaskStatus.COMPLETE }) := by
  induction tasks with
  | nil => rfl
  | cons t rest ih =>
    by_cases h : t.task_id = task_id
    · have hb : (t.task_id == task_id) = true := beq_iff_eq.mpr h
      simp [findTask, setTaskComplete, List.find?, Function.comp, h, hb]
    · have hb : (t.task_id == task_id) = false := beq_eq_false_iff_ne.mpr h
      simpa [findTask, setTaskComplete, List.find?, Function.comp, h, hb] using ih

theorem findTask_schedule (tasks : List ConcurrentUsageCalculationTask)
    (freshTaskId user_id date task_id : Nat)
    (h : findTask tasks task_id = none) :
    findTask (schedule_concurrent_calculation_task freshTaskId user_id date tasks)
        task_id =
      if freshTaskId = task_id
      then some ⟨freshTaskId, user_id, date, TaskStatus.SCHEDULED⟩
      else none := by
  induction tasks with
  | nil =>
    by_cases hf : freshTaskId = task_id
    · have hb : (freshTaskId == task_id) = true := beq_iff_eq.mpr hf
      simp [findTask, schedule_concurrent_calculation_task, List.find?, hf, hb]
    · have hb : (freshTaskId == task_id) = false := beq_eq_false_iff_ne.mpr hf
      simp [findTask, schedule_concurrent_calculation_task, List.find?, hf, hb]
  | cons t rest ih =>
    by_cases ht : t.task_id = task_id
    · have hb : (t.task_id == task_id) = true := beq_iff_eq.mpr ht
      simp [findTask, List.find?, hb] at h
    · have hb : (t.task_id == task_id) = false := beq_eq_false_iff_ne.mpr ht
      simp only [findTask, List.find?, hb] at h
      simpa [findTask, schedule_concurrent_calculation_task, List.find?, hb]
        using ih h

theorem handleTaskError_of_missing (tasks : List ConcurrentUsageCalculationTask)
    (task_id : Nat) (h : findTask tasks task_id = none) :
    handleTaskError task_id tasks = tasks := by
  induction tasks with
  | nil => rfl
  | cons t rest ih =>
    by_cases ht : t.task_id = task_id
    · have hb : (t.task_id == task_id) = true := beq_iff_eq.mpr ht
      simp [findTask, List.find?, hb] at h
    · have hb : (t.task_id == task_id) = false := beq_eq_false_iff_ne.mpr ht
      simp only [findTask, List.find?, hb] at h
      simp [handleTaskError, ht] at ih ⊢
      exact ih h

/-! ### Claim theorems -/

/-- C1: for every execution of `calculate_max_concurrent_usage_task`,
the task record's status is set to COMPLETE only if all of the
following held during that execution: the task record was re-read by
its task identifier and found to exist with status SCHEDULED, the
referenced user existed, the per-user lock was held for the full
duration of the usage computation (acquired before it and released
after it), and `calculate_max_concurrent_usage` returned without
raising. -/
theorem c1_complete_only_after_full_success (env : TaskEnv)
    (task_id user_id date : Nat) (st : TaskState)
    (hc : taskStatus (calculate_max_concurrent_usage_task env task_id user_id date st).state
            task_id = some TaskStatus.COMPLETE)
    (h0 : taskStatus st task_id ≠ some TaskStatus.COMPLETE) :
    user_id ∈ st.users ∧
    (∃ t, findTask st.tasks task_id = some t ∧ t.status = TaskStatus.SCHEDULED) ∧
    env.lockExc = none ∧
    env.calcExc = none ∧
    (calculate_max_concurrent_usage_task env task_id user_id date st).trace.lockAcquired
      = true ∧
    (calculate_max_concurrent_usage_task env task_id user_id date st).trace.lockReleased
      = true ∧
    (calculate_max_concurrent_usage_task env task_id user_id date st).trace.calcInvoked
      = true := by
  by_cases hu : user_id ∈ st.users
  · cases hl : env.lockExc with
    | some e =>
        exfalso
        simp [calculate_max_concurrent_usage_task, hu, hl, taskStatus,
          findTask_handleTaskError] at hc
    | none =>
        cases hf : findTask st.tasks task_id with
        | none =>
            exfalso
            simp only [calculate_max_concurrent_usage_task, hu, if_true, hl, hf,
              taskStatus] at hc
            rw [findTask_schedule st.tasks env.freshTaskId user_id date task_id hf] at hc
            by_cases hfr : env.freshTaskId = task_id <;> simp [hfr] at hc
        | some t =>
            by_cases hs : t.status = TaskStatus.SCHEDULED
            · cases he : env.calcExc with
              | some e =>
                  exfalso
                  simp [calculate_max_concurrent_usage_task, hu, hl, hf, hs, he,
                    taskStatus, findTask_handleTaskError] at hc
              | none =>
                  exact ⟨hu, ⟨t, rfl, hs⟩, rfl, rfl, by
                    simp [calculate_max_concurrent_usage_task, hu, hl, hf, hs, he], by
                    simp [calculate_max_concurrent_usage_task, hu, hl, hf, hs, he], by
                    simp [calculate_max_concurrent_usage_task, hu, hl, hf, hs, he]⟩
            · exfalso
              have hst : (calculate_max_concurrent_usage_task env task_id user_id date
                  st).state = st := by
                simp [calculate_max_concurrent_usage_task, hu, hl, hf, hs]
              rw [hst] at hc
              exact h0 hc
  · exfalso
    have hst : (calculate_max_concurrent_usage_task env task_id user_id date st).state
        = st := by
      simp [calculate_max_concurrent_usage_task, hu]
    rw [hst] at hc
    exact h0 hc

theorem c1_witness :
    7 ∈ (TaskState.mk [7] [⟨1, 7, 3, TaskStatus.SCHEDULED⟩] []).users ∧
    (∃ t, findTask (TaskState.mk [7] [⟨1, 7, 3, TaskStatus.SCHEDULED⟩] []).tasks 1
        = some t ∧ t.status = TaskStatus.SCHEDULED) ∧
    (TaskEnv.mk none none 2).lockExc = none ∧
    (TaskEnv.mk none none 2).calcExc = none ∧
    (calculate_max_concurrent_usage_task (TaskEnv.mk none none 2) 1 7 3
      (TaskState.mk [7] [⟨1, 7, 3, TaskStatus.SCHEDULED⟩] [])).trace.lockAcquired = true ∧
    (calculate_max_concurrent_usage_task (TaskEnv.mk none none 2) 1 7 3
      (TaskState.mk [7] [⟨1, 7, 3, TaskStatus.SCHEDULED⟩] [])).trace.lockReleased = true ∧
    (calculate_max_concurrent_usage_task (TaskEnv.mk none none 2) 1 7 3
      (TaskState.mk [7] [⟨1, 7, 3, TaskStatus.SCHEDULED⟩] [])).trace.calcInvoked = true :=
  c1_complete_only_after_full_success (TaskEnv.mk none none 2) 1 7 3
    (TaskState.mk [7] [⟨1, 7, 3, TaskStatus.SCHEDULED⟩] []) (by decide) (by decide)

/-- C2: for every execution of `calculate_max_concurrent_usage_task` in
which the locked computation is reached (user exists, lock acquired,
record found with status SCHEDULED) and `calculate_max_concurrent_usage`
raises, the task record's status is set to ERROR and the same
triggering exception is re-raised unchanged to the caller; it is never
swallowed. -/
theorem c2_error_recorded_and_reraised (env : TaskEnv)
    (task_id user_id date : Nat) (st : TaskState)
    (t : ConcurrentUsageCalculationTask) (e : Nat)
    (hu : user_id ∈ st.users) (hl : env.lockExc = none)
    (hf : findTask st.tasks task_id = some t)
    (hs : t.status = TaskStatus.SCHEDULED)
    (he : env.calcExc = some e) :
    (calculate_max_concurrent_usage_task env task_id user_id date st).outcome
      = Outcome.raised e ∧
    taskStatus (calculate_max_concurrent_usage_task env task_id user_id date st).state
      task_id = some TaskStatus.ERROR := by
  constructor <;>
    simp [calculate_max_concurrent_usage_task, hu, hl, hf, hs, he, taskStatus,
      findTask_handleTaskError]

theorem c2_witness :
    (calculate_max_concurrent_usage_task (TaskEnv.mk none (some 9) 2) 1 7 3
      (TaskState.mk [7] [⟨1, 7, 3, TaskStatus.SCHEDULED⟩] [])).outcome
      = Outcome.raised 9 ∧
    taskStatus (calculate_max_concurrent_usage_task (TaskEnv.mk none (some 9) 2) 1 7 3
      (TaskState.mk [7] [⟨1, 7, 3, TaskStatus.SCHEDULED⟩] [])).state 1
      = some TaskStatus.ERROR :=
  c2_error_recorded_and_reraised (TaskEnv.mk none (some 9) 2) 1 7 3
    (TaskState.mk [7] [⟨1, 7, 3, TaskStatus.SCHEDULED⟩] [])
    ⟨1, 7, 3, TaskStatus.SCHEDULED⟩ 9 (by decide) rfl (by decide) rfl rfl

/-- C3 counterexample: the claim's unqualified text fails on the
execution in which the task record is missing and the user exists but
lock acquisition raises.  The `try:` at tasks.py line 590 encloses the
`with lock_task_for_user_ids` at line 595, so the exception reaches the
except handler at lines 637-646 before the record lookup ever runs:
nothing is scheduled (the handler's filtered ERROR update touches zero
rows of an empty match) and the worker raises instead of returning. -/
theorem c3_counterexample :
    findTask (TaskState.mk [7] [] []).tasks 1 = none ∧
    7 ∈ (TaskState.mk [7] [] []).users ∧
    (calculate_max_concurrent_usage_task (TaskEnv.mk (some 4) none 2) 1 7 3
      (TaskState.mk [7] [] [])).state.tasks = [] ∧
    (calculate_max_concurrent_usage_task (TaskEnv.mk (some 4) none 2) 1 7 3
      (TaskState.mk [7] [] [])).trace.scheduledNewTask = false ∧
    (calculate_max_concurrent_usage_task (TaskEnv.mk (some 4) none 2) 1 7 3
      (TaskState.mk [7] [] [])).outcome = Outcome.raised 4 := by decide

/-- C3 (amended): for every execution of
`calculate_max_concurrent_usage_task` in which the per-user lock is
acquired without raising and the task record for the delivered task
identifier does not exist while the user does, the worker schedules a
fresh SCHEDULED task for the same (user, date) via
`schedule_concurrent_calculation_task` and returns normally without
invoking the usage computation and without writing any ConcurrentUsage
snapshot.  (If lock acquisition raises instead, nothing is scheduled
and the exception propagates.) -/
theorem c3_missing_record_reschedules (env : TaskEnv)
    (task_id user_id date : Nat) (st : TaskState)
    (hu : user_id ∈ st.users) (hl : env.lockExc = none)
    (hf : findTask st.tasks task_id = none) :
    (calculate_max_concurrent_usage_task env task_id user_id date st).outcome
      = Outcome.ok ∧
    (calculate_max_concurrent_usage_task env task_id user_id date st).state.tasks
      = schedule_concurrent_calculation_task env.freshTaskId user_id date st.tasks ∧
    (calculate_max_concurrent_usage_task env task_id user_id date st).state.tasks
      = st.tasks ++ [⟨env.freshTaskId, user_id, date, TaskStatus.SCHEDULED⟩] ∧
    (calculate_max_concurrent_usage_task env task_id user_id date st).trace.scheduledNewTask
      = true ∧
    (calculate_max_concurrent_usage_task env task_id user_id date st).trace.calcInvoked
      = false ∧
    (calculate_max_concurrent_usage_task env task_id user_id date st).state.usageWrites
      = st.usageWrites := by
  refine ⟨?_, ?_, ?_, ?_, ?_, ?_⟩ <;>
    simp [calculate_max_concurrent_usage_task, hu, hl, hf,
      schedule_concurrent_calculation_task]

theorem c3_witness :
    (calculate_max_concurrent_usage_task (TaskEnv.mk none none 2) 1 7 3
      (TaskState.mk [7] [] [])).outcome = Outcome.ok ∧
    (calculate_max_concurrent_usage_task (TaskEnv.mk none none 2) 1 7 3
      (TaskState.mk [7] [] [])).state.tasks
      = schedule_concurrent_calculation_task 2 7 3 [] ∧
    (calculate_max_concurrent_usage_task (TaskEnv.mk none none 2) 1 7 3
      (TaskState.mk [7] [] [])).state.tasks
      = [] ++ [⟨2, 7, 3, TaskStatus.SCHEDULED⟩] ∧
    (calculate_max_concurrent_usage_task (TaskEnv.mk none none 2) 1 7 3
      (TaskState.mk [7] [] [])).trace.scheduledNewTask = true ∧
    (calculate_max_concurrent_usage_task (TaskEnv.mk none none 2) 1 7 3
      (TaskState.mk [7] [] [])).trace.calcInvoked = false ∧
    (calculate_max_concurrent_usage_task (TaskEnv.mk none none 2) 1 7 3
      (TaskState.mk [7] [] [])).state.usageWrites = [] :=
  c3_missing_record_reschedules (TaskEnv.mk none none 2) 1 7 3
    (TaskState.mk [7] [] []) (by decide) rfl rfl

/-- C4 counterexample: the claim's unqualified text fails on the
execution in which the task record exists with the terminal status
COMPLETE (not SCHEDULED) and the user exists but lock acquisition
raises: the except handler at tasks.py lines 637-646 runs before the
status re-check, modifies the record's status to ERROR, and re-raises
— contradicting "without modifying the task record's status, and
without raising an error". -/
theorem c4_counterexample :
    taskStatus (TaskState.mk [7] [⟨1, 7, 3, TaskStatus.COMPLETE⟩] []) 1
      = some TaskStatus.COMPLETE ∧
    7 ∈ (TaskState.mk [7] [⟨1, 7, 3, TaskStatus.COMPLETE⟩] []).users ∧
    taskStatus (calculate_max_concurrent_usage_task (TaskEnv.mk (some 4) none 2) 1 7 3
      (TaskState.mk [7] [⟨1, 7, 3, TaskStatus.COMPLETE⟩] [])).state 1
      = some TaskStatus.ERROR ∧
    (calculate_max_concurrent_usage_task (TaskEnv.mk (some 4) none 2) 1 7 3
      (TaskState.mk [7] [⟨1, 7, 3, TaskStatus.COMPLETE⟩] [])).outcome
      = Outcome.raised 4 := by decide

/-- C4 (amended): for every execution of
`calculate_max_concurrent_usage_task` in which the per-user lock is
acquired without raising and the task record exists but its status is
not SCHEDULED, the worker returns without computing usage, without
modifying any state (in particular the task record's status), and
without raising.  (If lock acquisition raises instead, the except
handler sets the record's status to ERROR and re-raises.) -/
theorem c4_non_scheduled_skips_silently (env : TaskEnv)
    (task_id user_id date : Nat) (st : TaskState)
    (t : ConcurrentUsageCalculationTask)
    (hu : user_id ∈ st.users) (hl : env.lockExc = none)
    (hf : findTask st.tasks task_id = some t)
    (hs : t.status ≠ TaskStatus.SCHEDULED) :
    (calculate_max_concurrent_usage_task env task_id user_id date st).outcome
      = Outcome.ok ∧
    (calculate_max_concurrent_usage_task env task_id user_id date st).state = st ∧
    (calculate_max_concurrent_usage_task env task_id user_id date st).trace.calcInvoked
      = false := by
  refine ⟨?_, ?_, ?_⟩ <;> simp [calculate_max_concurrent_usage_task, hu, hl, hf, hs]

theorem c4_witness :
    (calculate_max_concurrent_usage_task (TaskEnv.mk none none 2) 1 7 3
      (TaskState.mk [7] [⟨1, 7, 3, TaskStatus.COMPLETE⟩] [])).outcome = Outcome.ok ∧
    (calculate_max_concurrent_usage_task (TaskEnv.mk none none 2) 1 7 3
      (TaskState.mk [7] [⟨1, 7, 3, TaskStatus.COMPLETE⟩] [])).state
      = TaskState.mk [7] [⟨1, 7, 3, TaskStatus.COMPLETE⟩] [] ∧
    (calculate_max_concurrent_usage_task (TaskEnv.mk none none 2) 1 7 3
      (TaskState.mk [7] [⟨1, 7, 3, TaskStatus.COMPLETE⟩] [])).trace.calcInvoked
      = false :=
  c4_non_scheduled_skips_silently (TaskEnv.mk none none 2) 1 7 3
    (TaskState.mk [7] [⟨1, 7, 3, TaskStatus.COMPLETE⟩] [])
    ⟨1, 7, 3, TaskStatus.COMPLETE⟩ (by decide) rfl (by decide) (by decide)

/-- C5: for every execution of `calculate_max_concurrent_usage_task`
where the referenced user does not exist, the task returns immediately
without acquiring the per-user lock, without computing usage, and
without modifying any task record or ConcurrentUsage snapshot. -/
theorem c5_missing_user_skips_everything (env : TaskEnv)
    (task_id user_id date : Nat) (st : TaskState)
    (hu : user_id ∉ st.users) :
    (calculate_max_concurrent_usage_task env task_id user_id date st).state = st ∧
    (calculate_max_concurrent_usage_task env task_id user_id date st).outcome
      = Outcome.ok ∧
    (calculate_max_concurrent_usage_task env task_id user_id date st).trace.lockAcquired
      = false ∧
    (calculate_max_concurrent_usage_task env task_id user_id date st).trace.calcInvoked
      = false := by
  refine ⟨?_, ?_, ?_, ?_⟩ <;> simp [calculate_max_concurrent_usage_task, hu]

theorem c5_witness :
    (calculate_max_concurrent_usage_task (TaskEnv.mk none none 2) 1 7 3
      (TaskState.mk [] [⟨1, 7, 3, TaskStatus.SCHEDULED⟩] [])).state
      = TaskState.mk [] [⟨1, 7, 3, TaskStatus.SCHEDULED⟩] [] ∧
    (calculate_max_concurrent_usage_task (TaskEnv.mk none none 2) 1 7 3
      (TaskState.mk [] [⟨1, 7, 3, TaskStatus.SCHEDULED⟩] [])).outcome = Outcome.ok ∧
    (calculate_max_concurrent_usage_task (TaskEnv.mk none none 2) 1 7 3
      (TaskState.mk [] [⟨1, 7, 3, TaskStatus.SCHEDULED⟩] [])).trace.lockAcquired
      = false ∧
    (calculate_max_concurrent_usage_task (TaskEnv.mk none none 2) 1 7 3
      (TaskState.mk [] [⟨1, 7, 3, TaskStatus.SCHEDULED⟩] [])).trace.calcInvoked
      = false :=
  c5_missing_user_skips_everything (TaskEnv.mk none none 2) 1 7 3
    (TaskState.mk [] [⟨1, 7, 3, TaskStatus.SCHEDULED⟩] []) (by decide)

/-- C6 counterexample: a ConcurrentUsageCalculationTask that has
reached the terminal status COMPLETE is transitioned to ERROR by a
subsequent execution for the same task identifier whose lock
acquisition raises: the except handler of tasks.py lines 637-646 runs
its filtered ERROR update before the status re-check ever happens. -/
theorem c6_counterexample :
    taskStatus (TaskState.mk [7] [⟨1, 7, 3, TaskStatus.COMPLETE⟩] []) 1
      = some TaskStatus.COMPLETE ∧
    taskStatus (calculate_max_concurrent_usage_task (TaskEnv.mk (some 4) none 2) 1 7 3
      (TaskState.mk [7] [⟨1, 7, 3, TaskStatus.COMPLETE⟩] [])).state 1
      = some TaskStatus.ERROR := by decide

/-- C6 (amended): an ERROR record is never changed by any subsequent
execution of `calculate_max_concurrent_usage_task` for its task
identifier, and a COMPLETE record is never changed by any execution in
which the per-user lock is acquired without raising; moreover, when the
lock is acquired, only a SCHEDULED record can change status at all (so
every transition out of SCHEDULED happens at most once per record on
the lock-acquired path).  However, an execution whose lock acquisition
raises runs the except handler's filtered ERROR update before the
status re-check, so it sets the record to ERROR even if the record was
already COMPLETE. -/
theorem c6_amended_terminal_preservation (env : TaskEnv)
    (task_id user_id date : Nat) (st : TaskState)
    (t : ConcurrentUsageCalculationTask)
    (hf : findTask st.tasks task_id = some t) :
    (t.status = TaskStatus.ERROR →
      taskStatus (calculate_max_concurrent_usage_task env task_id user_id date st).state
        task_id = some TaskStatus.ERROR) ∧
    (t.status = TaskStatus.COMPLETE → env.lockExc = none →
      taskStatus (calculate_max_concurrent_usage_task env task_id user_id date st).state
        task_id = some TaskStatus.COMPLETE) ∧
    (env.lockExc = none →
      taskStatus (calculate_max_concurrent_usage_task env task_id user_id date st).state
        task_id ≠ some t.status →
      t.status = TaskStatus.SCHEDULED) := by
  by_cases hu : user_id ∈ st.users
  · cases hl : env.lockExc with
    | some e =>
        refine ⟨fun _ => ?_, fun _ hl2 => ?_, fun hl2 => ?_⟩
        · simp [calculate_max_concurrent_usage_task, hu, hl, taskStatus,
            findTask_handleTaskError, hf]
        · exact absurd hl2 (by simp)
        · exact absurd hl2 (by simp)
    | none =>
        by_cases hs : t.status = TaskStatus.SCHEDULED
        · refine ⟨fun ha => ?_, fun hb _ => ?_, fun _ _ => hs⟩
          · rw [hs] at ha; exact absurd ha (by decide)
          · rw [hs] at hb; exact absurd hb (by decide)
        · have hst : (calculate_max_concurrent_usage_task env task_id user_id date
              st).state = st := by
            simp [calculate_max_concurrent_usage_task, hu, hl, hf, hs]
          refine ⟨fun ha => ?_, fun hb _ => ?_, fun _ hne => ?_⟩
          · rw [hst]; simp [taskStatus, hf, ha]
          · rw [hst]; simp [taskStatus, hf, hb]
          · exact absurd (by rw [hst]; simp [taskStatus, hf]) hne
  · have hst : (calculate_max_concurrent_usage_task env task_id user_id date st).state
        = st := by
      simp [calculate_max_concurrent_usage_task, hu]
    refine ⟨fun ha => ?_, fun hb _ => ?_, fun _ hne => ?_⟩
    · rw [hst]; simp [taskStatus, hf, ha]
    · rw [hst]; simp [taskStatus, hf, hb]
    · exact absurd (by rw [hst]; simp [taskStatus, hf]) hne

theorem c6_witness :
    ((⟨1, 7, 3, TaskStatus.ERROR⟩ : ConcurrentUsageCalculationTask).status
        = TaskStatus.ERROR →
      taskStatus (calculate_max_concurrent_usage_task (TaskEnv.mk none none 2) 1 7 3
        (TaskState.mk [7] [⟨1, 7, 3, TaskStatus.ERROR⟩] [])).state 1
        = some TaskStatus.ERROR) ∧
    ((⟨1, 7, 3, TaskStatus.ERROR⟩ : ConcurrentUsageCalculationTask).status
        = TaskStatus.COMPLETE → (TaskEnv.mk none none 2).lockExc = none →
      taskStatus (calculate_max_concurrent_usage_task (TaskEnv.mk none none 2) 1 7 3
        (TaskState.mk [7] [⟨1, 7, 3, TaskStatus.ERROR⟩] [])).state 1
        = some TaskStatus.COMPLETE) ∧
    ((TaskEnv.mk none none 2).lockExc = none →
      taskStatus (calculate_max_concurrent_usage_task (TaskEnv.mk none none 2) 1 7 3
        (TaskState.mk [7] [⟨1, 7, 3, TaskStatus.ERROR⟩] [])).state 1
        ≠ some (⟨1, 7, 3, TaskStatus.ERROR⟩ : ConcurrentUsageCalculationTask).status →
      (⟨1, 7, 3, TaskStatus.ERROR⟩ : ConcurrentUsageCalculationTask).status
        = TaskStatus.SCHEDULED) :=
  c6_amended_terminal_preservation (TaskEnv.mk none none 2) 1 7 3
    (TaskState.mk [7] [⟨1, 7, 3, TaskStatus.ERROR⟩] [])
    ⟨1, 7, 3, TaskStatus.ERROR⟩ (by decide)

/-- The Q-filter of tasks.py lines 431-435, characterized: a Run
matches exactly when it starts strictly after the event's timestamp, or
starts at or before it and ends strictly after it, or starts at or
before it and is still open. -/
theorem affectsExistingRun_iff (ts : Int) (r : Run) :
    affectsExistingRun ts r = true ↔
      (ts < r.start_time ∨
       (r.start_time ≤ ts ∧ ∃ e, r.end_time = some e ∧ ts < e) ∨
       (r.start_time ≤ ts ∧ r.end_time = none)) := by
  cases hend : r.end_time with
  | none => simp [affectsExistingRun, hend]
  | some e => simp [affectsExistingRun, hend]

/-- C7: for every incoming event whose instance exists,
`process_instance_event` invokes `recalculate_runs` if and only if some
persisted Run for the event's instance either starts strictly after the
event's timestamp, or starts at or before it and ends strictly after
it, or starts at or before it and is still open (end = none). -/
theorem c7_recalculate_iff_matching_run (event : InstanceEvent)
    (st : EventProcessState)
    (hi : event.instance_id ∈ st.instances) :
    (process_instance_event event st).recalculateInvoked = true ↔
      ∃ r ∈ st.runs, r.instance_id = event.instance_id ∧
        (event.occurred_at < r.start_time ∨
         (r.start_time ≤ event.occurred_at ∧
           ∃ e, r.end_time = some e ∧ event.occurred_at < e) ∨
         (r.start_time ≤ event.occurred_at ∧ r.end_time = none)) := by
  have key : (process_instance_event event st).recalculateInvoked
      = st.runs.any (fun r =>
          r.instance_id == event.instance_id &&
            affectsExistingRun event.occurred_at r) := by
    by_cases ha : st.runs.any (fun r =>
        r.instance_id == event.instance_id &&
          affectsExistingRun event.occurred_at r) = true
    · simp [process_instance_event, hi, ha]
    · have ha' : st.runs.any (fun r =>
          r.instance_id == event.instance_id &&
            affectsExistingRun event.occurred_at r) = false :=
        eq_false_of_ne_true ha
      by_cases hon : event.event_type = EventType.power_on <;>
        simp [process_instance_event, hi, ha', hon]
  rw [key, List.any_eq_true]
  constructor
  · rintro ⟨r, hr, hp⟩
    rw [Bool.and_eq_true, beq_iff_eq] at hp
    exact ⟨r, hr, hp.1, (affectsExistingRun_iff event.occurred_at r).mp hp.2⟩
  · rintro ⟨r, hr, hid, hp⟩
    exact ⟨r, hr, by
      rw [Bool.and_eq_true, beq_iff_eq]
      exact ⟨hid, (affectsExistingRun_iff event.occurred_at r).mpr hp⟩⟩

theorem c7_witness :
    ((⟨1, EventType.power_off, 5, 0, 0, 0, 0⟩ : InstanceEvent).instance_id
        ∈ (EventProcessState.mk [1] []
            [⟨1, 0, 4, none, 0, 0, 0⟩]).instances) ∧
    ((process_instance_event ⟨1, EventType.power_off, 5, 0, 0, 0, 0⟩
        (EventProcessState.mk [1] []
          [⟨1, 0, 4, none, 0, 0, 0⟩])).recalculateInvoked = true ↔
      ∃ r ∈ (EventProcessState.mk [1] []
          [⟨1, 0, 4, none, 0, 0, 0⟩] : EventProcessState).runs,
        r.instance_id
            = (⟨1, EventType.power_off, 5, 0, 0, 0, 0⟩ : InstanceEvent).instance_id ∧
          ((⟨1, EventType.power_off, 5, 0, 0, 0, 0⟩ : InstanceEvent).occurred_at
              < r.start_time ∨
           (r.start_time
                ≤ (⟨1, EventType.power_off, 5, 0, 0, 0, 0⟩ : InstanceEvent).occurred_at ∧
             ∃ e, r.end_time = some e ∧
               (⟨1, EventType.power_off, 5, 0, 0, 0, 0⟩ : InstanceEvent).occurred_at < e) ∨
           (r.start_time
                ≤ (⟨1, EventType.power_off, 5, 0, 0, 0, 0⟩ : InstanceEvent).occurred_at ∧
             r.end_time = none))) :=
  ⟨by decide,
   c7_recalculate_iff_matching_run ⟨1, EventType.power_off, 5, 0, 0, 0, 0⟩
     (EventProcessState.mk [1] [] [⟨1, 0, 4, none, 0, 0, 0⟩]) (by decide)⟩

/-- C8: a `power_off` event whose timestamp matches no persisted Run of
its (existing) instance under the Q-filter leaves the state unchanged:
no Run is created or modified, no recalculation is invoked, no
ConcurrentUsage recomputation is triggered, and no error is raised. -/
theorem c8_stray_power_off_is_noop (event : InstanceEvent)
    (st : EventProcessState)
    (hi : event.instance_id ∈ st.instances)
    (hoff : event.event_type = EventType.power_off)
    (hnone : ∀ r ∈ st.runs, r.instance_id = event.instance_id →
      affectsExistingRun event.occurred_at r = false) :
    (process_instance_event event st).state = st ∧
    (process_instance_event event st).recalculateInvoked = false ∧
    (process_instance_event event st).usageRecalculationTriggered = false ∧
    (process_instance_event event st).outcome = Outcome.ok := by
  have ha : st.runs.any (fun r =>
      r.instance_id == event.instance_id &&
        affectsExistingRun event.occurred_at r) = false := by
    rw [List.any_eq_false]
    intro r hr
    by_cases h : r.instance_id = event.instance_id
    · simp [h, hnone r hr h]
    · simp [h]
  refine ⟨?_, ?_, ?_, ?_⟩ <;> simp [process_instance_event, hi, ha, hoff]

theorem c8_witness :
    (process_instance_event (⟨1, EventType.power_off, 5, 0, 0, 0, 0⟩ : InstanceEvent)
      (EventProcessState.mk [1] [] [⟨1, 0, 1, some 3, 0, 0, 0⟩])).state
      = EventProcessState.mk [1] [] [⟨1, 0, 1, some 3, 0, 0, 0⟩] ∧
    (process_instance_event (⟨1, EventType.power_off, 5, 0, 0, 0, 0⟩ : InstanceEvent)
      (EventProcessState.mk [1] [] [⟨1, 0, 1, some 3, 0, 0, 0⟩])).recalculateInvoked
      = false ∧
    (process_instance_event (⟨1, EventType.power_off, 5, 0, 0, 0, 0⟩ : InstanceEvent)
      (EventProcessState.mk [1] []
        [⟨1, 0, 1, some 3, 0, 0, 0⟩])).usageRecalculationTriggered = false ∧
    (process_instance_event (⟨1, EventType.power_off, 5, 0, 0, 0, 0⟩ : InstanceEvent)
      (EventProcessState.mk [1] [] [⟨1, 0, 1, some 3, 0, 0, 0⟩])).outcome
      = Outcome.ok :=
  c8_stray_power_off_is_noop ⟨1, EventType.power_off, 5, 0, 0, 0, 0⟩
    (EventProcessState.mk [1] [] [⟨1, 0, 1, some 3, 0, 0, 0⟩])
    (by decide) rfl (by decide)

/-- In every branch of `calculate_max_concurrent_usage_task` the
release flag of the trace equals the acquisition flag: the `with` block
releases the lock on each exit of the locked region. -/
theorem task_lock_released_eq_acquired (env : TaskEnv)
    (task_id user_id date : Nat) (st : TaskState) :
    (calculate_max_concurrent_usage_task env task_id user_id date st).trace.lockReleased
      = (calculate_max_concurrent_usage_task env task_id user_id date st).trace.lockAcquired := by
  unfold calculate_max_concurrent_usage_task
  repeat' split
  all_goals rfl

/-- A lock-acquisition failure of `calculate_max_concurrent_usage_task`
is surfaced: the exception reaches the caller (after the except
handler's ERROR update). -/
theorem task_lock_timeout_surfaced (env : TaskEnv)
    (task_id user_id date : Nat) (st : TaskState) (e : Nat)
    (hl : env.lockExc = some e) (hu : user_id ∈ st.users) :
    (calculate_max_concurrent_usage_task env task_id user_id date st).outcome
      = Outcome.raised e := by
  simp [calculate_max_concurrent_usage_task, hu, hl]

/-- Every critical section entered by `_delete_cloud_accounts` is
released again. -/
theorem delete_locks_released (lockExcAt : Nat → Option Nat)
    (accounts : List CloudAccount) (db : List Nat) :
    ∀ s ∈ (_delete_cloud_accounts lockExcAt accounts db).locks, s.released = true := by
  induction accounts generalizing lockExcAt db with
  | nil => intro s hs; simp [_delete_cloud_accounts] at hs
  | cons a rest ih =>
    intro s hs
    cases hl : lockExcAt 0 with
    | some e => simp [_delete_cloud_accounts, hl] at hs
    | none =>
      simp only [_delete_cloud_accounts, hl, List.mem_cons] at hs
      rcases hs with h | h
      · rw [h]
      · exact ih _ _ s h

/-- A raised outcome of `_delete_cloud_accounts` is always a surfaced
lock-acquisition failure, carrying the lock manager's exception. -/
theorem delete_raise_is_lock_timeout (lockExcAt : Nat → Option Nat)
    (accounts : List CloudAccount) (db : List Nat) (e : Nat)
    (h : (_delete_cloud_accounts lockExcAt accounts db).outcome = Outcome.raised e) :
    ∃ i, lockExcAt i = some e := by
  induction accounts generalizing lockExcAt db with
  | nil => simp [_delete_cloud_accounts] at h
  | cons a rest ih =>
    cases hl : lockExcAt 0 with
    | some e2 =>
      simp [_delete_cloud_accounts, hl] at h
      exact ⟨0, by rw [hl, h]⟩
    | none =>
      simp only [_delete_cloud_accounts, hl] at h
      obtain ⟨i, hi⟩ := ih _ _ h
      exact ⟨i + 1, hi⟩

/-- C9: both operations that acquire the per-user task lock release it
on every exit path — `calculate_max_concurrent_usage_task`'s trace
shows the lock released whenever it was acquired (normal return and
exception alike), and every critical section entered by
`_delete_cloud_accounts` is released — and a lock-acquisition timeout
is surfaced to the caller as a raised failure rather than silently
ignored. -/
theorem c9_lock_discipline :
    (∀ (env : TaskEnv) (task_id user_id date : Nat) (st : TaskState),
      ((calculate_max_concurrent_usage_task env task_id user_id date st).trace.lockAcquired
          = true →
        (calculate_max_concurrent_usage_task env task_id user_id date st).trace.lockReleased
          = true) ∧
      (∀ e, env.lockExc = some e → user_id ∈ st.users →
        (calculate_max_concurrent_usage_task env task_id user_id date st).outcome
          = Outcome.raised e)) ∧
    (∀ (lockExcAt : Nat → Option Nat) (accounts : List CloudAccount) (db : List Nat),
      (∀ s ∈ (_delete_cloud_accounts lockExcAt accounts db).locks, s.released = true) ∧
      (∀ e, (_delete_cloud_accounts lockExcAt accounts db).outcome = Outcome.raised e →
        ∃ i, lockExcAt i = some e)) := by
  refine ⟨fun env task_id user_id date st => ⟨?_, ?_⟩,
          fun lockExcAt accounts db => ⟨?_, ?_⟩⟩
  · intro h
    rw [task_lock_released_eq_acquired, h]
  · intro e hl hu
    exact task_lock_timeout_surfaced env task_id user_id date st e hl hu
  · exact delete_locks_released lockExcAt accounts db
  · intro e h
    exact delete_raise_is_lock_timeout lockExcAt accounts db e h

theorem c9_witness :
    (calculate_max_concurrent_usage_task (TaskEnv.mk (some 5) none 2) 1 7 3
      (TaskState.mk [7] [] [])).outcome = Outcome.raised 5 :=
  (c9_lock_discipline.1 (TaskEnv.mk (some 5) none 2) 1 7 3
    (TaskState.mk [7] [] [])).2 5 rfl (by decide)

/-- C10: on the failure path of `calculate_max_concurrent_usage_task`
the ERROR recording is the filtered bulk update `handleTaskError`,
which is total (it cannot raise) and affects zero rows when the task
record has been deleted; consequently every raised outcome of the task
carries exactly the triggering exception (that of the lock acquisition
or that of the usage computation), never one of the handler's own. -/
theorem c10_error_recording_is_safe :
    (∀ (tasks : List ConcurrentUsageCalculationTask) (task_id : Nat),
      findTask tasks task_id = none → handleTaskError task_id tasks = tasks) ∧
    (∀ (env : TaskEnv) (task_id user_id date : Nat) (st : TaskState) (e : Nat),
      (calculate_max_concurrent_usage_task env task_id user_id date st).outcome
          = Outcome.raised e →
      env.lockExc = some e ∨ (env.lockExc = none ∧ env.calcExc = some e)) := by
  constructor
  · exact fun tasks task_id h => handleTaskError_of_missing tasks task_id h
  · intro env task_id user_id date st e h
    by_cases hu : user_id ∈ st.users
    · cases hl : env.lockExc with
      | some e2 =>
        left
        simp [calculate_max_concurrent_usage_task, hu, hl] at h
        rw [h]
      | none =>
        right
        refine ⟨rfl, ?_⟩
        cases hf : findTask st.tasks task_id with
        | none => simp [calculate_max_concurrent_usage_task, hu, hl, hf] at h
        | some t =>
          by_cases hs : t.status = TaskStatus.SCHEDULED
          · cases he : env.calcExc with
            | some e2 =>
              simp [calculate_max_concurrent_usage_task, hu, hl, hf, hs, he] at h
              rw [h]
            | none =>
              simp [calculate_max_concurrent_usage_task, hu, hl, hf, hs, he] at h
          · simp [calculate_max_concurrent_usage_task, hu, hl, hf, hs] at h
    · simp [calculate_max_concurrent_usage_task, hu] at h

theorem c10_witness :
    handleTaskError 1 [] = [] :=
  c10_error_recording_is_safe.1 [] 1 rfl

end Cloudigrade
